import Mathlib

/-!
Shallow embedding of the verification-and-analysis core of `Gutenberger.py`:
the metadata matcher (`verify_metadata`), the readability scorer
(`detect_language`, `count_syllables`, `calculate_reading_difficulty`,
`grade_to_cefr`), the theme detector (`detect_themes`) and the content-document
name filter of `extract_text_from_epub`.

Modelling conventions:
* Python strings are `List Char`; `str.split()` (whitespace tokenization) is
  `splitWs`; substring tests (`in`) are `containsSub`.
* Python floats are modelled as exact rationals `ℚ`; `round(x, 1)` is modelled
  by `round1` (round half to even on the rational value, as Python's `round`
  does on ties; every concrete input used below is tie-free).
* Python's `\w` and `str.lower()` cover all of Unicode; the embedding covers
  the ASCII range plus every accented letter occurring in the source's
  constant tables (vowel list, theme taxonomies), which is the range the
  program's own data exercises.
* The optional third-party tiers (`textstat`, `pyphen`) are modelled as
  unavailable, i.e. `TEXTSTAT_AVAILABLE = PYPHEN_AVAILABLE = False`: the
  embedding is the always-available fallback tier of the source.
-/

set_option maxRecDepth 16000

namespace Gutenberger

/-- Accented lowercase letters appearing in the source's constant tables,
together with `ß`; used to model Python's Unicode-wide `\w` class on the
character range the program exercises. -/
def accentLower : List Char :=
  ['ä', 'ö', 'ü', 'á', 'é', 'í', 'ó', 'ú', 'à', 'è', 'ì', 'ò', 'ù',
   'â', 'ê', 'î', 'ô', 'û', 'æ', 'œ', 'ñ', 'ç', 'ß']

/-- Uppercase forms of `accentLower` (except `ß`), paired with their
lowercase counterparts; models `str.lower()` beyond ASCII. -/
def accentPairs : List (Char × Char) :=
  [('Ä', 'ä'), ('Ö', 'ö'), ('Ü', 'ü'), ('Á', 'á'), ('É', 'é'), ('Í', 'í'),
   ('Ó', 'ó'), ('Ú', 'ú'), ('À', 'à'), ('È', 'è'), ('Ì', 'ì'), ('Ò', 'ò'),
   ('Ù', 'ù'), ('Â', 'â'), ('Ê', 'ê'), ('Î', 'î'), ('Ô', 'ô'), ('Û', 'û'),
   ('Æ', 'æ'), ('Œ', 'œ'), ('Ñ', 'ñ'), ('Ç', 'ç')]

/-- `str.lower()` on one character (ASCII plus the accented range above). -/
def toLowerChar (c : Char) : Char :=
  match accentPairs.lookup c with
  | some l => l
  | none => c.toLower

/-- Python's `\w` class (word character) on the modelled character range:
ASCII letters and digits, underscore, and the accented letters of the
source's tables. -/
def isWordChar (c : Char) : Bool :=
  c.isAlphanum || c == '_' || accentLower.contains c || (accentPairs.map Prod.fst).contains c

/-- Helper for `splitWs`: accumulates the current word (reversed). -/
def splitWsAux : List Char → List Char → List (List Char)
  | [], [] => []
  | [], cur => [cur.reverse]
  | c :: rest, cur =>
    if c.isWhitespace then
      match cur with
      | [] => splitWsAux rest []
      | _ => cur.reverse :: splitWsAux rest []
    else
      splitWsAux rest (c :: cur)

/-- Python `str.split()` with no argument: split on whitespace runs,
producing no empty tokens. -/
def splitWs (s : List Char) : List (List Char) :=
  splitWsAux s []

/-- Python substring test `pat in s`. -/
def containsSub : List Char → List Char → Bool
  | pat, [] => pat.isEmpty
  | pat, s@(_ :: rest) => pat.isPrefixOf s || containsSub pat rest

/-- The vowels of the source's fallback syllable counter
(`count_syllables`), line for line from the string literal
`'aeiouyäöüáéíóúàèìòùâêîôûæœ'`. -/
def vowels : List Char :=
  ['a', 'e', 'i', 'o', 'u', 'y', 'ä', 'ö', 'ü', 'á', 'é', 'í', 'ó', 'ú',
   'à', 'è', 'ì', 'ò', 'ù', 'â', 'ê', 'î', 'ô', 'û', 'æ', 'œ']

/-- The character scan of `count_syllables`: counts characters that are a
vowel immediately preceded by a non-vowel (vowel-cluster starts). The
Boolean argument is the source's `prev_vowel` flag. -/
def syllableScan : List Char → Bool → ℕ
  | [], _ => 0
  | c :: rest, prevVowel =>
    let isV := vowels.contains c
    (if isV && !prevVowel then 1 else 0) + syllableScan rest isV

/-- `count_syllables(word, lang)` with `PYPHEN_AVAILABLE = False`: lowercase
the word, count vowel-cluster starts, floor at 1. The language argument is
only consumed by the absent `pyphen` tier. -/
def count_syllables (word : List Char) (_lang : String) : ℕ :=
  max 1 (syllableScan (word.map toLowerChar) false)

/-- Sentence terminator class `[.!?]` of the manual tier. -/
def isTerm (c : Char) : Bool :=
  c == '.' || c == '!' || c == '?'

/-- `len(re.findall(r'[.!?]+', text))`: the number of maximal runs of
sentence terminators. The Boolean argument tracks whether the previous
character was a terminator. -/
def countTermRuns : List Char → Bool → ℕ
  | [], _ => 0
  | c :: rest, inRun =>
    if isTerm c then
      (if inRun then 0 else 1) + countTermRuns rest true
    else
      countTermRuns rest false

/-- `re.sub(r'[^\w\s.!?]', '', text)`: keep only word characters,
whitespace and sentence terminators. -/
def cleanupText (text : List Char) : List Char :=
  text.filter (fun c => isWordChar c || c.isWhitespace || isTerm c)

/-- Round half to even to the nearest integer (the tie rule of Python's
`round`). -/
def roundHalfEven (q : ℚ) : ℤ :=
  let f := ⌊q⌋
  let r := q - f
  if r < 1 / 2 then f
  else if 1 / 2 < r then f + 1
  else if f % 2 = 0 then f else f + 1

/-- Python `round(x, 1)` modelled over `ℚ`. -/
def round1 (q : ℚ) : ℚ :=
  (roundHalfEven (q * 10) : ℚ) / 10

/-- The raw Flesch–Kincaid formula of the manual tier:
`0.39 * (words/sentences) + 11.8 * (syllables/words) - 15.59`, with the
source's decimal literals as exact rationals. -/
def fk_raw (word_count sentences syllables : ℕ) : ℚ :=
  39 / 100 * ((word_count : ℚ) / (sentences : ℚ))
    + 118 / 10 * ((syllables : ℚ) / (word_count : ℚ))
    - 1559 / 100

/-- `grade_to_cefr(grade_level)`: `None → None`, then the inclusive-upper
threshold chain of the source. -/
def grade_to_cefr : Option ℚ → Option String
  | none => none
  | some g =>
    if g ≤ 4 then some "A1"
    else if g ≤ 6 then some "A2"
    else if g ≤ 8 then some "B1"
    else if g ≤ 10 then some "B2"
    else if g ≤ 13 then some "C1"
    else some "C2"

/-- `lang_markers['de']` from `detect_language`. -/
def markers_de : List String :=
  ["der", "die", "das", "und", "ist", "nicht", "sie", "ich", "ein", "eine"]

/-- `lang_markers['es']` from `detect_language`. -/
def markers_es : List String :=
  ["el", "la", "los", "las", "que", "de", "en", "es", "por", "con"]

/-- `lang_markers['fr']` from `detect_language`. -/
def markers_fr : List String :=
  ["le", "la", "les", "des", "est", "sont", "nous", "vous", "pas", "qui"]

/-- `lang_markers['en']` from `detect_language`. -/
def markers_en : List String :=
  ["the", "and", "is", "are", "was", "were", "have", "has", "been", "will"]

/-- `sum(1 for w in words if f' {w} ' in text_lower)`: the number of marker
words whose space-wrapped form occurs in the (already lowercased) text. -/
def marker_score (textLower : List Char) (ws : List String) : ℕ :=
  ws.countP (fun w => containsSub (' ' :: (w.data ++ [' '])) textLower)

/-- `max(scores, key=scores.get)` over an association list traversed in
insertion order: the current best is replaced only by a strictly greater
score, so the first maximum wins. -/
def pickBest (best : String × ℕ) : List (String × ℕ) → String × ℕ
  | [] => best
  | x :: rest => if best.2 < x.2 then pickBest x rest else pickBest best rest

/-- `detect_language(text)`: lowercase the text, score the four marker
lists, return the language of the first maximal score in the table order
`de, es, fr, en`. -/
def detect_language (text : List Char) : String :=
  let tl := text.map toLowerChar
  (pickBest ("de", marker_score tl markers_de)
    [("es", marker_score tl markers_es),
     ("fr", marker_score tl markers_fr),
     ("en", marker_score tl markers_en)]).1

/-- The source idiom `if not lang: lang = detect_language(text)`: an absent
or empty hint is replaced by the detector's result. -/
def resolveLang (lang : Option String) (text : List Char) : String :=
  match lang with
  | some l => if l.isEmpty then detect_language text else l
  | none => detect_language text

/-- The result dictionary of `calculate_reading_difficulty`. A key absent
from the returned Python dict is `none` here. -/
structure DifficultyResult where
  grade_level : Option ℚ
  cefr : Option String
  language : Option String
  error : Option String
deriving DecidableEq

/-- `calculate_reading_difficulty(text, lang)` with
`TEXTSTAT_AVAILABLE = False` (the manual tier). Mirrors the source: the
short-text guard, language resolution on the raw text, cleanup, terminator
runs (floored at 1), whitespace tokenization, the word-count guard, the
Flesch–Kincaid formula on the raw counts, clamping and rounding of the
reported grade, and the CEFR band computed from the unclamped, unrounded
grade. -/
def calculate_reading_difficulty (text : List Char) (lang : Option String) :
    DifficultyResult :=
  if text.length < 100 then
    ⟨none, none, none, some "Text too short"⟩
  else
    let l := resolveLang lang text
    let cleaned := cleanupText text
    let sentences := max 1 (countTermRuns cleaned false)
    let words := splitWs cleaned
    let word_count := words.length
    if word_count < 10 then
      ⟨none, none, none, some "Not enough words"⟩
    else
      let syllable_count := (words.map (fun w => count_syllables w l)).sum
      let grade_level := fk_raw word_count sentences syllable_count
      ⟨some (round1 (max 0 grade_level)), grade_to_cefr (some grade_level),
        some l, none⟩

/-- The result dictionary of `verify_metadata`. -/
structure MatchResult where
  title_match : Bool
  author_match : Bool
  actual_title : Option (List Char)
  actual_author : Option (List Char)
deriving DecidableEq

/-- Python truthiness of an optional string: `None` and `''` are falsy. -/
def truthy : Option (List Char) → Bool
  | none => false
  | some s => !s.isEmpty

/-- The `normalize` helper of `verify_metadata`, fused with the subsequent
`.split()`: lowercase, drop characters that are neither word characters nor
whitespace, and tokenize on whitespace. (The source's normalized string is
truthy exactly when this token list is non-empty, and both later uses of a
normalized string immediately re-split it.) -/
def normalizeWords (s : List Char) : List (List Char) :=
  splitWs ((s.map toLowerChar).filter (fun c => isWordChar c || c.isWhitespace))

/-- The author-name pair test of `verify_metadata`: both tokens longer than
2 characters and one a substring of the other. -/
def author_pair_ok (ep ap : List Char) : Bool :=
  decide (2 < ep.length) && decide (2 < ap.length)
    && (containsSub ep ap || containsSub ap ep)

/-- `verify_metadata(expected_title, expected_author, actual_metadata)`:
both flags false when either actual field is falsy; otherwise the title
flag requires the distinct-word intersection to reach `min(2, |expected
word set|)` (with both normalized strings non-empty), and the author flag
requires some substring-related pair of tokens longer than 2 characters. -/
def verify_metadata (expected_title expected_author : List Char)
    (actual_title actual_author : Option (List Char)) : MatchResult :=
  if !truthy actual_title || !truthy actual_author then
    ⟨false, false, actual_title, actual_author⟩
  else
    let etn := normalizeWords expected_title
    let ean := normalizeWords expected_author
    let atn := normalizeWords (actual_title.getD [])
    let aan := normalizeWords (actual_author.getD [])
    let tm := !etn.isEmpty && !atn.isEmpty
      && decide (min 2 etn.dedup.length ≤ (etn.dedup.filter (fun w => w ∈ atn)).length)
    let am := !ean.isEmpty && !aan.isEmpty
      && ean.any (fun ep => aan.any (fun ap => author_pair_ok ep ap))
    ⟨tm, am, actual_title, actual_author⟩

/-- `THEME_KEYWORDS['en']` from the source, in declaration order. -/
def theme_keywords_en : List (String × List String) :=
  [("coming_of_age", ["growing up", "childhood", "youth", "adolescent", "mature", "coming of age", "rite of passage", "innocence", "adulthood"]),
   ("self_discovery", ["identity", "self", "soul", "purpose", "meaning", "destiny", "truth", "enlightenment", "awakening", "realization"]),
   ("love_romance", ["love", "heart", "passion", "beloved", "marriage", "romance", "affection", "devotion", "desire"]),
   ("morality", ["moral", "virtue", "sin", "conscience", "duty", "honor", "righteous", "ethical", "good", "evil", "temptation"]),
   ("social_criticism", ["society", "class", "poverty", "wealth", "injustice", "oppression", "inequality", "corruption", "hypocrisy"]),
   ("adventure", ["adventure", "journey", "quest", "explore", "discover", "voyage", "expedition", "danger", "brave", "hero"]),
   ("nature", ["nature", "forest", "mountain", "sea", "river", "wild", "animal", "natural", "landscape"]),
   ("death_mortality", ["death", "die", "grave", "mortal", "funeral", "ghost", "afterlife", "eternal", "fate"]),
   ("family", ["family", "father", "mother", "brother", "sister", "parent", "child", "home", "heritage"]),
   ("war_conflict", ["war", "battle", "soldier", "army", "enemy", "fight", "conflict", "peace", "victory", "defeat"]),
   ("freedom", ["freedom", "liberty", "free", "escape", "prison", "captive", "chains", "independence"]),
   ("faith_religion", ["god", "faith", "prayer", "church", "soul", "heaven", "divine", "spirit", "holy", "salvation"]),
   ("ambition", ["ambition", "power", "success", "glory", "fame", "fortune", "aspiration", "dream", "goal"]),
   ("isolation", ["alone", "lonely", "solitude", "isolation", "exile", "outcast", "stranger", "alienation"])]

/-- `THEME_KEYWORDS['de']` from the source, in declaration order. -/
def theme_keywords_de : List (String × List String) :=
  [("coming_of_age", ["erwachsen", "jugend", "kindheit", "reife", "entwicklung", "bildung", "lehrjahre"]),
   ("self_discovery", ["selbst", "seele", "identität", "sinn", "wahrheit", "erkenntnis", "erwachen", "bestimmung"]),
   ("love_romance", ["liebe", "herz", "leidenschaft", "ehe", "hochzeit", "zuneigung", "sehnsucht", "verlangen"]),
   ("morality", ["moral", "tugend", "sünde", "gewissen", "pflicht", "ehre", "gut", "böse", "schuld"]),
   ("social_criticism", ["gesellschaft", "klasse", "armut", "reichtum", "ungerechtigkeit", "unterdrückung", "bürger"]),
   ("adventure", ["abenteuer", "reise", "fahrt", "entdeckung", "gefahr", "held", "mut", "wagnis"]),
   ("nature", ["natur", "wald", "berg", "meer", "fluss", "wild", "tier", "landschaft"]),
   ("death_mortality", ["tod", "sterben", "grab", "sterblich", "geist", "ewigkeit", "schicksal", "ende"]),
   ("family", ["familie", "vater", "mutter", "bruder", "schwester", "eltern", "kind", "heim", "erbe"]),
   ("war_conflict", ["krieg", "kampf", "soldat", "heer", "feind", "schlacht", "frieden", "sieg", "niederlage"]),
   ("freedom", ["freiheit", "frei", "flucht", "gefängnis", "ketten", "befreiung", "unabhängigkeit"]),
   ("faith_religion", ["gott", "glaube", "gebet", "kirche", "seele", "himmel", "heilig", "erlösung", "segen"]),
   ("ambition", ["ehrgeiz", "macht", "erfolg", "ruhm", "traum", "ziel", "streben", "aufstieg"]),
   ("isolation", ["einsamkeit", "allein", "einsam", "fremd", "außenseiter", "verbannt", "verlassen"])]

/-- `THEME_KEYWORDS['es']` from the source, in declaration order. -/
def theme_keywords_es : List (String × List String) :=
  [("coming_of_age", ["crecer", "juventud", "infancia", "madurez", "adolescencia", "formación"]),
   ("self_discovery", ["identidad", "alma", "sentido", "verdad", "destino", "despertar", "iluminación"]),
   ("love_romance", ["amor", "corazón", "pasión", "matrimonio", "boda", "deseo", "cariño", "enamorado"]),
   ("morality", ["moral", "virtud", "pecado", "conciencia", "deber", "honor", "bien", "mal", "culpa"]),
   ("social_criticism", ["sociedad", "clase", "pobreza", "riqueza", "injusticia", "opresión", "corrupción"]),
   ("adventure", ["aventura", "viaje", "búsqueda", "explorar", "peligro", "héroe", "valiente"]),
   ("nature", ["naturaleza", "bosque", "montaña", "mar", "río", "salvaje", "animal", "paisaje"]),
   ("death_mortality", ["muerte", "morir", "tumba", "mortal", "fantasma", "eternidad", "destino"]),
   ("family", ["familia", "padre", "madre", "hermano", "hermana", "hijo", "hogar", "herencia"]),
   ("war_conflict", ["guerra", "batalla", "soldado", "ejército", "enemigo", "lucha", "paz", "victoria"]),
   ("freedom", ["libertad", "libre", "escape", "prisión", "cadenas", "independencia", "liberación"]),
   ("faith_religion", ["dios", "fe", "oración", "iglesia", "alma", "cielo", "sagrado", "salvación"]),
   ("ambition", ["ambición", "poder", "éxito", "gloria", "fama", "sueño", "meta", "fortuna"]),
   ("isolation", ["soledad", "solo", "solitario", "aislamiento", "exilio", "extranjero", "abandonado"])]

/-- `THEME_KEYWORDS['fr']` from the source, in declaration order. -/
def theme_keywords_fr : List (String × List String) :=
  [("coming_of_age", ["grandir", "jeunesse", "enfance", "maturité", "adolescence", "formation"]),
   ("self_discovery", ["identité", "âme", "sens", "vérité", "destin", "éveil", "illumination"]),
   ("love_romance", ["amour", "coeur", "passion", "mariage", "noces", "désir", "tendresse", "amoureux"]),
   ("morality", ["moral", "vertu", "péché", "conscience", "devoir", "honneur", "bien", "mal", "culpabilité"]),
   ("social_criticism", ["société", "classe", "pauvreté", "richesse", "injustice", "oppression", "corruption"]),
   ("adventure", ["aventure", "voyage", "quête", "explorer", "danger", "héros", "brave"]),
   ("nature", ["nature", "forêt", "montagne", "mer", "rivière", "sauvage", "animal", "paysage"]),
   ("death_mortality", ["mort", "mourir", "tombe", "mortel", "fantôme", "éternité", "destin"]),
   ("family", ["famille", "père", "mère", "frère", "soeur", "enfant", "foyer", "héritage"]),
   ("war_conflict", ["guerre", "bataille", "soldat", "armée", "ennemi", "lutte", "paix", "victoire"]),
   ("freedom", ["liberté", "libre", "évasion", "prison", "chaînes", "indépendance", "libération"]),
   ("faith_religion", ["dieu", "foi", "prière", "église", "âme", "ciel", "sacré", "salut"]),
   ("ambition", ["ambition", "pouvoir", "succès", "gloire", "renommée", "rêve", "but", "fortune"]),
   ("isolation", ["solitude", "seul", "solitaire", "isolement", "exil", "étranger", "abandonné"])]

/-- `THEME_KEYWORDS` as an association list in insertion order. -/
def THEME_KEYWORDS : List (String × List (String × List String)) :=
  [("en", theme_keywords_en), ("de", theme_keywords_de),
   ("es", theme_keywords_es), ("fr", theme_keywords_fr)]

/-- `THEME_LABELS` from the source. -/
def THEME_LABELS : List (String × String) :=
  [("coming_of_age", "Coming of Age"),
   ("self_discovery", "Self-Discovery"),
   ("love_romance", "Love & Romance"),
   ("morality", "Morality & Ethics"),
   ("social_criticism", "Social Criticism"),
   ("adventure", "Adventure"),
   ("nature", "Nature"),
   ("death_mortality", "Death & Mortality"),
   ("family", "Family"),
   ("war_conflict", "War & Conflict"),
   ("freedom", "Freedom"),
   ("faith_religion", "Faith & Religion"),
   ("ambition", "Ambition & Power"),
   ("isolation", "Isolation & Alienation")]

/-- `THEME_KEYWORDS.get(lang, THEME_KEYWORDS['en'])`. -/
def taxonomyFor (lang : String) : List (String × List String) :=
  match THEME_KEYWORDS.lookup lang with
  | some t => t
  | none => theme_keywords_en

/-- One step of the regex `r'\b' + re.escape(keyword) + r'\b'` at the head
of `s`: the keyword is a prefix of `s`, the previous character (if any) is
not a word character, and the character following the match (if any) is not
a word character. Every taxonomy keyword begins and ends with a word
character, so `\b` at its edges is exactly this transition test. An empty
pattern never matches. -/
def matchesAt (kw : List Char) (prev : Option Char) (s : List Char) : Bool :=
  !kw.isEmpty && kw.isPrefixOf s
    && (match prev with
        | none => true
        | some p => !isWordChar p)
    && (match List.drop kw.length s with
        | [] => true
        | c :: _ => !isWordChar c)

/-- `len(re.findall(pattern, text_lower))` for a boundary-anchored literal
keyword: scan left to right, counting non-overlapping matches; after a
match the scan resumes past the matched region (the `skip` counter), and
`prev` tracks the last consumed character for the left boundary test. -/
def countKwAux (kw : List Char) : Option Char → ℕ → List Char → ℕ
  | _, _, [] => 0
  | _, skip + 1, c :: rest => countKwAux kw (some c) skip rest
  | prev, 0, c :: rest =>
    if matchesAt kw prev (c :: rest) then
      1 + countKwAux kw (some c) (kw.length - 1) rest
    else
      countKwAux kw (some c) 0 rest

/-- Whole-word occurrence count of one keyword in the lowercased text. -/
def countKw (kw textLower : List Char) : ℕ :=
  countKwAux kw none 0 textLower

/-- The per-theme raw score of `detect_themes`: summed whole-word
occurrence counts of the theme's keywords. -/
def themeRaw (kws : List String) (textLower : List Char) : ℕ :=
  (kws.map (fun k => countKw k.data textLower)).sum

/-- The `theme_scores` dictionary of `detect_themes` as an association list
in taxonomy declaration order: themes with a zero raw count are dropped,
the rest score `(raw / word_count) * 10000`. -/
def theme_scores (text : List Char) (lang : String) : List (String × ℚ) :=
  let tl := text.map toLowerChar
  let wc := (splitWs text).length
  (taxonomyFor lang).filterMap (fun p =>
    let raw := themeRaw p.2 tl
    if 0 < raw then some (p.1, ((raw : ℕ) : ℚ) / (wc : ℚ) * 10000) else none)

/-- Stable descending insertion: walk past strictly greater scores, so an
inserted element stays before later elements with an equal score. -/
def insertDesc (x : String × ℚ) : List (String × ℚ) → List (String × ℚ)
  | [] => [x]
  | y :: ys => if x.2 < y.2 then y :: insertDesc x ys else x :: y :: ys

/-- `sorted(theme_scores.items(), key=lambda x: x[1], reverse=True)`:
a stable sort by score descending (Python's sort is stable, and the dict
items are in taxonomy declaration order). -/
def stableSortDesc : List (String × ℚ) → List (String × ℚ)
  | [] => []
  | x :: xs => insertDesc x (stableSortDesc xs)

/-- The `sorted_themes` list of `detect_themes`. -/
def sorted_themes (text : List Char) (lang : String) : List (String × ℚ) :=
  stableSortDesc (theme_scores text lang)

/-- `detect_themes(text, lang, top_n)`: empty text (or no whitespace
tokens) yields `[]`; otherwise the labels of the first `top_n` sorted
themes whose normalized score is at least 1. -/
def detect_themes (text : List Char) (lang : Option String) (top_n : ℕ) :
    List String :=
  if text.isEmpty then []
  else
    let l := resolveLang lang text
    if (splitWs text).length = 0 then []
    else
      (((sorted_themes text l).take top_n).filter (fun p => (1 : ℚ) ≤ p.2)).map
        (fun p => (THEME_LABELS.lookup p.1).getD p.1)

/-- The HTML/XHTML suffix test of `extract_text_from_epub`:
`n.endswith(('.html', '.xhtml', '.htm'))`. -/
def html_suffix (n : List Char) : Bool :=
  List.isSuffixOf ".html".data n || List.isSuffixOf ".xhtml".data n
    || List.isSuffixOf ".htm".data n

/-- The content-document filter of `extract_text_from_epub`: keep an entry
name iff it has an HTML/XHTML suffix and `'toc' not in n.lower()`. -/
def content_name_kept (n : List Char) : Bool :=
  html_suffix n && !containsSub "toc".data (n.map toLowerChar)

/-- The `html_files` list comprehension of `extract_text_from_epub`,
restricted to the name filter (the surrounding ZIP I/O and HTML stripping
are outside the embedded fragment). -/
def html_files (names : List (List Char)) : List (List Char) :=
  names.filter content_name_kept

/-- Demo text: twenty one-syllable words and one sentence terminator, 120
characters long; its raw fallback grade is `0.39 * 20 + 11.8 * 1 - 15.59 =
4.01`. -/
def demoBlunt : List Char :=
  ("blunt blunt blunt blunt blunt blunt blunt blunt blunt blunt " ++
    "blunt blunt blunt blunt blunt blunt blunt blunt blunt blunt.").data

/-- Demo text: ten vowel-free ten-sentence words (one syllable each by the
floor-at-1 rule), 219 characters long; raw grade `-3.4`. -/
def monoTextA : List Char :=
  List.intercalate " ".data (List.replicate 10 "bcdfghjklmnpqrstvwxz.".data)

/-- `monoTextA` with its first word replaced by a two-syllable word of the
same length; same word and sentence counts, one syllable more (raw grade
`-2.22`). -/
def monoTextB : List Char :=
  List.intercalate " ".data
    ("babadfghjklmnpqrstvwz.".data :: List.replicate 9 "bcdfghjklmnpqrstvwxz.".data)

/-- Demo text for the theme detector: ten occurrences of one keyword. -/
def demoLove : List Char :=
  "love love love love love love love love love love".data

/-- Demo text on which the language detector picks Spanish. -/
def cesText : List Char := " el la que ".data

/-! ## Helper lemmas -/

theorem containsSub_refl (l : List Char) : containsSub l l = true := by
  cases l with
  | nil => rfl
  | cons c rest => simp [containsSub, List.isPrefixOf_iff_prefix]

theorem mem_insertDesc {z x : String × ℚ} {l : List (String × ℚ)}
    (h : z ∈ insertDesc x l) : z = x ∨ z ∈ l := by
  induction l with
  | nil => simpa [insertDesc] using h
  | cons y ys ih =>
    by_cases hc : x.2 < y.2
    · simp only [insertDesc, if_pos hc, List.mem_cons] at h
      rcases h with h | h
      · exact Or.inr (by simp [h])
      · rcases ih h with h' | h'
        · exact Or.inl h'
        · exact Or.inr (List.mem_cons_of_mem _ h')
    · simp only [insertDesc, if_neg hc, List.mem_cons] at h
      rcases h with h | h
      · exact Or.inl h
      · exact Or.inr (List.mem_cons.2 h)

theorem pairwise_insertDesc {x : String × ℚ} {l : List (String × ℚ)}
    (h : l.Pairwise (fun a b => b.2 ≤ a.2)) :
    (insertDesc x l).Pairwise (fun a b => b.2 ≤ a.2) := by
  induction l with
  | nil => simp [insertDesc]
  | cons y ys ih =>
    rcases List.pairwise_cons.1 h with ⟨hy, hys⟩
    by_cases hc : x.2 < y.2
    · simp only [insertDesc, if_pos hc]
      refine List.pairwise_cons.2 ⟨?_, ih hys⟩
      intro z hz
      rcases mem_insertDesc hz with rfl | hz'
      · exact le_of_lt hc
      · exact hy z hz'
    · simp only [insertDesc, if_neg hc]
      refine List.pairwise_cons.2 ⟨?_, h⟩
      intro z hz
      rcases List.mem_cons.1 hz with rfl | hz'
      · exact le_of_not_lt hc
      · exact le_trans (hy z hz') (le_of_not_lt hc)

theorem mem_stableSortDesc {z : String × ℚ} {l : List (String × ℚ)}
    (h : z ∈ stableSortDesc l) : z ∈ l := by
  induction l with
  | nil => simp [stableSortDesc] at h
  | cons x xs ih =>
    simp only [stableSortDesc] at h
    rcases mem_insertDesc h with rfl | h'
    · exact List.mem_cons_self _ _
    · exact List.mem_cons_of_mem _ (ih h')

theorem pairwise_stableSortDesc (l : List (String × ℚ)) :
    (stableSortDesc l).Pairwise (fun a b => b.2 ≤ a.2) := by
  induction l with
  | nil => simp [stableSortDesc]
  | cons x xs ih => exact pairwise_insertDesc ih

theorem filter_insertDesc (x : String × ℚ) (l : List (String × ℚ)) (q : ℚ) :
    (insertDesc x l).filter (fun p => decide (p.2 = q)) =
      if x.2 = q then x :: l.filter (fun p => decide (p.2 = q))
      else l.filter (fun p => decide (p.2 = q)) := by
  induction l with
  | nil => by_cases hx : x.2 = q <;> simp [insertDesc, hx]
  | cons y ys ih =>
    by_cases hc : x.2 < y.2
    · simp only [insertDesc, if_pos hc]
      by_cases hx : x.2 = q
      · have hy : ¬ y.2 = q := by
          intro he
          exact absurd (hx ▸ he ▸ hc) (lt_irrefl _)
        simp [List.filter_cons, hx, hy, ih]
      · by_cases hy : y.2 = q <;> simp [List.filter_cons, hx, hy, ih]
    · simp only [insertDesc, if_neg hc]
      by_cases hx : x.2 = q <;> by_cases hy : y.2 = q <;>
        simp [List.filter_cons, hx, hy]

theorem filter_stableSortDesc (l : List (String × ℚ)) (q : ℚ) :
    (stableSortDesc l).filter (fun p => decide (p.2 = q)) =
      l.filter (fun p => decide (p.2 = q)) := by
  induction l with
  | nil => rfl
  | cons x xs ih =>
    simp only [stableSortDesc, filter_insertDesc, ih]
    by_cases hx : x.2 = q <;> simp [List.filter_cons, hx]

/-- Evaluation lemma for the manual tier: once both guards pass, the
result record is the formula record. -/
theorem calc_manual_eval (text : List Char) (lang : Option String)
    (h1 : ¬ text.length < 100)
    (h2 : ¬ (splitWs (cleanupText text)).length < 10) :
    calculate_reading_difficulty text lang =
      ⟨some (round1 (max 0 (fk_raw (splitWs (cleanupText text)).length
          (max 1 (countTermRuns (cleanupText text) false))
          ((splitWs (cleanupText text)).map
            (fun w => count_syllables w (resolveLang lang text))).sum))),
        grade_to_cefr (some (fk_raw (splitWs (cleanupText text)).length
          (max 1 (countTermRuns (cleanupText text) false))
          ((splitWs (cleanupText text)).map
            (fun w => count_syllables w (resolveLang lang text))).sum)),
        some (resolveLang lang text), none⟩ := by
  simp only [calculate_reading_difficulty, h1, h2, if_false]

/-- Evaluation lemma for `round1` when the scaled value sits strictly below
the midpoint above its floor. -/
theorem round1_eq_of_floor (q : ℚ) (n : ℤ) (hn : ⌊q * 10⌋ = n)
    (hlt : q * 10 - (n : ℚ) < 1 / 2) : round1 q = (n : ℚ) / 10 := by
  simp only [round1, roundHalfEven, hn]
  rw [if_pos hlt]

/-- On `demoLove` the only theme with a positive raw count is
`love_romance` (10 occurrences in 10 words). -/
theorem theme_scores_demoLove :
    theme_scores demoLove "en" =
      [("love_romance", ((10 : ℕ) : ℚ) / ((10 : ℕ) : ℚ) * 10000)] := rfl

/-- Full evaluation of the theme detector on `demoLove`. -/
theorem detect_themes_demoLove :
    detect_themes demoLove (some "en") 5 = ["Love & Romance"] := by
  have h2 : detect_themes demoLove (some "en") 5 =
      (((stableSortDesc (theme_scores demoLove "en")).take 5).filter
        (fun p => decide ((1 : ℚ) ≤ p.2))).map
        (fun p => (THEME_LABELS.lookup p.1).getD p.1) := rfl
  have hge : (1 : ℚ) ≤ ((10 : ℕ) : ℚ) / ((10 : ℕ) : ℚ) * 10000 := by
    push_cast
    norm_num
  rw [h2, theme_scores_demoLove]
  simp only [stableSortDesc, insertDesc, List.take_succ_cons, List.take_nil,
    List.filter_cons, List.filter_nil]
  rw [decide_eq_true hge]
  rfl

/-! ## Claim theorems -/

/-- Claim C1: for every grade in `[0, 30]` the grade-to-band mapping
returns exactly one of the six CEFR bands, with inclusive upper bounds
(grade ≤ 4 → A1, ≤ 6 → A2, ≤ 8 → B1, ≤ 10 → B2, ≤ 13 → C1, otherwise C2),
and a null grade maps to a null band. -/
theorem grade_band_mapping (g : ℚ) (h0 : 0 ≤ g) (h30 : g ≤ 30) :
    (∃ b, grade_to_cefr (some g) = some b ∧
      (b = "A1" ∨ b = "A2" ∨ b = "B1" ∨ b = "B2" ∨ b = "C1" ∨ b = "C2")) ∧
    (g ≤ 4 → grade_to_cefr (some g) = some "A1") ∧
    (4 < g ∧ g ≤ 6 → grade_to_cefr (some g) = some "A2") ∧
    (6 < g ∧ g ≤ 8 → grade_to_cefr (some g) = some "B1") ∧
    (8 < g ∧ g ≤ 10 → grade_to_cefr (some g) = some "B2") ∧
    (10 < g ∧ g ≤ 13 → grade_to_cefr (some g) = some "C1") ∧
    (13 < g → grade_to_cefr (some g) = some "C2") ∧
    grade_to_cefr (none : Option ℚ) = none := by
  refine ⟨?_, ?_, ?_, ?_, ?_, ?_, ?_, rfl⟩ <;>
    simp only [grade_to_cefr] <;>
    split_ifs with h1 h2 h3 h4 h5 <;>
    try exact ⟨_, rfl, by decide⟩
  all_goals intro hh
  all_goals try rfl
  all_goals exfalso
  all_goals try obtain ⟨hh1, hh2⟩ := hh
  all_goals linarith

/-- Witness for C1 at the boundary grades named by the claim:
`4.0 → A1`, `4.1 → A2`, `13.0 → C1`, `13.1 → C2`. -/
theorem grade_band_mapping_witness :
    grade_to_cefr (some (4 : ℚ)) = some "A1" ∧
    grade_to_cefr (some (41 / 10 : ℚ)) = some "A2" ∧
    grade_to_cefr (some (13 : ℚ)) = some "C1" ∧
    grade_to_cefr (some (131 / 10 : ℚ)) = some "C2" :=
  ⟨(grade_band_mapping 4 (by norm_num) (by norm_num)).2.1 (by norm_num),
   (grade_band_mapping (41 / 10) (by norm_num) (by norm_num)).2.2.1
     ⟨by norm_num, by norm_num⟩,
   (grade_band_mapping 13 (by norm_num) (by norm_num)).2.2.2.2.2.1
     ⟨by norm_num, by norm_num⟩,
   (grade_band_mapping (131 / 10) (by norm_num) (by norm_num)).2.2.2.2.2.2.1
     (by norm_num)⟩

/-- Counterexample to claim C2: the claim says the "toc" exclusion is
case-sensitive, so that "TOC.xhtml" is NOT excluded, and that "stock.xhtml"
does not contain "toc". In the code the check is `'toc' not in n.lower()`:
"TOC.xhtml" IS excluded, and "stock" does contain "toc" as a substring. -/
theorem toc_filter_cex :
    content_name_kept "TOC.xhtml".data = false ∧
    containsSub "toc".data "stock.xhtml".data = true ∧
    html_files ["TOC.xhtml".data, "stock.xhtml".data, "protocol.xhtml".data,
      "chapter1.xhtml".data] = ["chapter1.xhtml".data] := by
  decide

/-- Claim C2 as amended: the filter keeps an entry iff its name has an
HTML/XHTML suffix and its LOWERCASED name does not contain "toc" — the
substring check is case-insensitive (applied to `n.lower()`), so e.g.
"TOC.xhtml", "stock.xhtml" and "protocol.xhtml" are all excluded. -/
theorem toc_filter_amended (names : List (List Char)) (n : List Char) :
    n ∈ html_files names ↔
      n ∈ names ∧ html_suffix n = true ∧
        containsSub "toc".data (n.map toLowerChar) = false := by
  simp only [html_files, List.mem_filter, content_name_kept,
    Bool.and_eq_true, Bool.not_eq_true']

/-- Witness for C2 (amended): a kept name passes both checks. -/
theorem toc_filter_amended_witness :
    "chapter1.xhtml".data ∈ html_files ["TOC.xhtml".data, "chapter1.xhtml".data] :=
  (toc_filter_amended ["TOC.xhtml".data, "chapter1.xhtml".data]
    "chapter1.xhtml".data).mpr ⟨by decide, by decide, by decide⟩

/-- Counterexample to claim C3: the matcher on exact input does NOT return
both flags true for every non-empty `T`, `A`: for `T = A = "!"` both
normalizations are empty and both flags stay false. -/
theorem matcher_exact_cex :
    "!".data ≠ [] ∧
    (verify_metadata "!".data "!".data (some "!".data) (some "!".data)).title_match
      = false ∧
    (verify_metadata "!".data "!".data (some "!".data) (some "!".data)).author_match
      = false := by
  decide

/-- Claim C3 as amended: the matcher on exact input returns both flags true
whenever the expected title's normalization is non-empty and the expected
author's normalization contains a token longer than 2 characters (the
counterexample shows mere non-emptiness of `T` and `A` is not enough). -/
theorem matcher_exact_amended (T A : List Char)
    (hT : normalizeWords T ≠ [])
    (hA : ∃ w ∈ normalizeWords A, 2 < w.length) :
    (verify_metadata T A (some T) (some A)).title_match = true ∧
    (verify_metadata T A (some T) (some A)).author_match = true := by
  obtain ⟨w, hwmem, hwlen⟩ := hA
  have hAn : normalizeWords A ≠ [] := by
    intro he
    rw [he] at hwmem
    exact absurd hwmem (List.not_mem_nil w)
  have hTne : T ≠ [] := fun h => hT (by rw [h]; rfl)
  have hAne : A ≠ [] := fun h => hAn (by rw [h]; rfl)
  have hcond : (!truthy (some T) || !truthy (some A)) = false := by
    cases T with
    | nil => exact absurd rfl hTne
    | cons t ts =>
      cases A with
      | nil => exact absurd rfl hAne
      | cons a as => rfl
  unfold verify_metadata
  rw [hcond]
  simp only [Bool.false_eq_true, if_false, Option.getD_some]
  constructor
  · simp only [Bool.and_eq_true, Bool.not_eq_true', List.isEmpty_eq_false,
      decide_eq_true_eq]
    refine ⟨⟨hT, hT⟩, ?_⟩
    have hfil : (normalizeWords T).dedup.filter
        (fun w => decide (w ∈ normalizeWords T)) = (normalizeWords T).dedup := by
      apply List.filter_eq_self.2
      intro a ha
      exact decide_eq_true (List.mem_dedup.1 ha)
    rw [hfil]
    exact Nat.min_le_right 2 _
  · simp only [Bool.and_eq_true, Bool.not_eq_true', List.isEmpty_eq_false,
      List.any_eq_true]
    refine ⟨⟨hAn, hAn⟩, w, hwmem, w, hwmem, ?_⟩
    simp only [author_pair_ok, Bool.and_eq_true, Bool.or_eq_true,
      decide_eq_true_eq]
    exact ⟨⟨hwlen, hwlen⟩, Or.inl (containsSub_refl w)⟩

/-- Witness for C3 (amended) on a real title/author pair. -/
theorem matcher_exact_amended_witness :
    (verify_metadata "Moby Dick".data "Herman Melville".data
      (some "Moby Dick".data) (some "Herman Melville".data)).title_match = true ∧
    (verify_metadata "Moby Dick".data "Herman Melville".data
      (some "Moby Dick".data) (some "Herman Melville".data)).author_match = true :=
  matcher_exact_amended "Moby Dick".data "Herman Melville".data
    (by decide) (by decide)

/-- Counterexample to claim C4: with both actual fields present, the claim
says the title flag is true exactly when the distinct-word intersection
reaches `min(2, |expected word set|)`. For an expected title that
normalizes to nothing (here `"!"`), the intersection bound `min(2, 0) = 0`
holds trivially, yet the code leaves the flag false. -/
theorem title_rule_cex :
    (verify_metadata "!".data "x".data (some "a".data) (some "b".data)).title_match
      = false ∧
    min 2 (normalizeWords "!".data).dedup.length ≤
      ((normalizeWords "!".data).dedup.filter
        (fun w => w ∈ normalizeWords "a".data)).length := by
  exact ⟨by decide, by decide⟩

/-- Claim C4 as amended: with both actual fields present AND a non-empty
normalization of the expected title, the title flag is true exactly when
the distinct-word intersection reaches `min(2, |expected word set|)`. -/
theorem title_rule_amended (expT expA aT aA : List Char)
    (haT : aT ≠ []) (haA : aA ≠ []) (hexp : normalizeWords expT ≠ []) :
    ((verify_metadata expT expA (some aT) (some aA)).title_match = true ↔
      min 2 (normalizeWords expT).dedup.length ≤
        ((normalizeWords expT).dedup.filter
          (fun w => w ∈ normalizeWords aT)).length) := by
  have hcond : (!truthy (some aT) || !truthy (some aA)) = false := by
    cases aT with
    | nil => exact absurd rfl haT
    | cons t ts =>
      cases aA with
      | nil => exact absurd rfl haA
      | cons a as => rfl
  unfold verify_metadata
  rw [hcond]
  simp only [Bool.false_eq_true, if_false, Option.getD_some]
  by_cases hat : normalizeWords aT = []
  · constructor
    · intro h
      exfalso
      simp only [Bool.and_eq_true, Bool.not_eq_true', List.isEmpty_eq_false]
        at h
      exact h.1.2 hat
    · intro h
      exfalso
      rw [hat] at h
      have h0 : ((normalizeWords expT).dedup.filter
          (fun w => w ∈ ([] : List (List Char)))).length = 0 := by
        simp
      rw [h0] at h
      have h1 : 0 < (normalizeWords expT).dedup.length :=
        List.length_pos.2 (fun he => hexp ((List.dedup_eq_nil _).1 he))
      omega
  · simp only [Bool.and_eq_true, Bool.not_eq_true', List.isEmpty_eq_false,
      decide_eq_true_eq]
    constructor
    · intro h
      exact h.2
    · intro h
      exact ⟨⟨hexp, hat⟩, h⟩

/-- Witness for C4 (amended): the claim's own concrete example — title
matches on ≥ 2 shared tokens, author does not match. -/
theorem title_rule_amended_witness :
    (verify_metadata "The Adventures of Tom Sawyer".data "Mark Twain".data
      (some "Adventures of Tom Sawyer".data)
      (some "Samuel Clemens".data)).title_match = true ∧
    (verify_metadata "The Adventures of Tom Sawyer".data "Mark Twain".data
      (some "Adventures of Tom Sawyer".data)
      (some "Samuel Clemens".data)).author_match = false :=
  ⟨(title_rule_amended "The Adventures of Tom Sawyer".data "Mark Twain".data
      "Adventures of Tom Sawyer".data "Samuel Clemens".data
      (by decide) (by decide) (by decide)).mpr (by decide),
   by decide⟩

/-- Claim C5: for every text of at least 100 characters whose cleanup
leaves at least 10 whitespace-separated words, the reported grade equals
`0.39 * (words/sentences) + 11.8 * (syllables/words) - 15.59` — with the
sentence count the number of terminator runs floored at 1 and the syllable
count the sum of per-word syllable counts — clamped to a minimum of 0 and
rounded to 1 decimal place. -/
theorem fallback_grade_formula (text : List Char) (lang : Option String)
    (hlen : 100 ≤ text.length)
    (hwords : 10 ≤ (splitWs (cleanupText text)).length) :
    (calculate_reading_difficulty text lang).grade_level =
      some (round1 (max 0
        (39 / 100 * (((splitWs (cleanupText text)).length : ℚ) /
            ((max 1 (countTermRuns (cleanupText text) false) : ℕ) : ℚ))
          + 118 / 10 *
            (((((splitWs (cleanupText text)).map
                (fun w => count_syllables w (resolveLang lang text))).sum : ℕ) : ℚ) /
              (((splitWs (cleanupText text)).length : ℕ) : ℚ))
          - 1559 / 100))) := by
  have h1 : ¬ text.length < 100 := by omega
  have h2 : ¬ (splitWs (cleanupText text)).length < 10 := by omega
  simp only [calculate_reading_difficulty, h1, h2, if_false, fk_raw]

/-- Witness for C5: on `demoBlunt` (20 one-syllable words, 1 sentence) the
formula gives `0.39*20 + 11.8*1 - 15.59 = 4.01`, reported as `4.0`. -/
theorem fallback_grade_formula_witness :
    (calculate_reading_difficulty demoBlunt none).grade_level = some 4 := by
  have h := fallback_grade_formula demoBlunt none (by decide) (by decide)
  rw [h]
  have e1 : (splitWs (cleanupText demoBlunt)).length = 20 := by decide
  have e2 : max 1 (countTermRuns (cleanupText demoBlunt) false) = 1 := by decide
  have e3 : ((splitWs (cleanupText demoBlunt)).map
      (fun w => count_syllables w (resolveLang none demoBlunt))).sum = 20 := by
    decide
  rw [e1, e2, e3]
  have hmax : max (0 : ℚ) (39 / 100 * (((20 : ℕ) : ℚ) / ((1 : ℕ) : ℚ))
      + 118 / 10 * (((20 : ℕ) : ℚ) / ((20 : ℕ) : ℚ)) - 1559 / 100) = 401 / 100 := by
    rw [max_eq_right (by push_cast; norm_num)]
    push_cast
    norm_num
  rw [hmax]
  rw [round1_eq_of_floor (401 / 100) 40
    (Int.floor_eq_iff.mpr (by constructor <;> push_cast <;> norm_num))
    (by push_cast; norm_num)]
  norm_num

/-- Claim C6: every text shorter than 100 characters, and every text whose
cleanup yields fewer than 10 words, produces a result with null grade
level and null band together with a non-empty explanatory reason; the
function is total (never raises). -/
theorem score_fails_soft (text : List Char) (lang : Option String) :
    (text.length < 100 →
      calculate_reading_difficulty text lang =
        ⟨none, none, none, some "Text too short"⟩ ∧
      "Text too short" ≠ "") ∧
    (100 ≤ text.length →
      (splitWs (cleanupText text)).length < 10 →
      calculate_reading_difficulty text lang =
        ⟨none, none, none, some "Not enough words"⟩ ∧
      "Not enough words" ≠ "") := by
  constructor
  · intro h
    refine ⟨?_, by decide⟩
    simp only [calculate_reading_difficulty, h, if_true]
  · intro hlen h
    refine ⟨?_, by decide⟩
    have h1 : ¬ text.length < 100 := by omega
    simp only [calculate_reading_difficulty, h1, if_false, h, if_true]

/-- Witness for C6: the empty text and a 100-character single-word text. -/
theorem score_fails_soft_witness :
    calculate_reading_difficulty [] none =
      ⟨none, none, none, some "Text too short"⟩ ∧
    calculate_reading_difficulty (List.replicate 100 'x') none =
      ⟨none, none, none, some "Not enough words"⟩ :=
  ⟨((score_fails_soft [] none).1 (by decide)).1,
   ((score_fails_soft (List.replicate 100 'x') none).2 (by decide) (by decide)).1⟩

/-- Counterexample to claim C7: strictly increasing the average
syllables-per-word at fixed sentence and word counts does NOT strictly
increase the grade level returned by the fallback tier: `monoTextA` and
`monoTextB` both have 10 words and 10 sentences, their syllable sums are
10 and 11 (average 1.0 vs 1.1), yet both return a grade level of 0.0,
because the raw grades (-3.4 and -2.22) are clamped to the 0 minimum. -/
theorem fallback_monotone_cex :
    (splitWs (cleanupText monoTextA)).length = 10 ∧
    (splitWs (cleanupText monoTextB)).length = 10 ∧
    countTermRuns (cleanupText monoTextA) false = 10 ∧
    countTermRuns (cleanupText monoTextB) false = 10 ∧
    ((splitWs (cleanupText monoTextA)).map (fun w => count_syllables w "de")).sum
      = 10 ∧
    ((splitWs (cleanupText monoTextB)).map (fun w => count_syllables w "de")).sum
      = 11 ∧
    (calculate_reading_difficulty monoTextA none).grade_level = some 0 ∧
    (calculate_reading_difficulty monoTextB none).grade_level = some 0 := by
  refine ⟨by decide, by decide, by decide, by decide, by decide, by decide, ?_, ?_⟩
  · rw [calc_manual_eval monoTextA none (by decide) (by decide)]
    have e1 : (splitWs (cleanupText monoTextA)).length = 10 := by decide
    have e2 : max 1 (countTermRuns (cleanupText monoTextA) false) = 10 := by decide
    have e3 : ((splitWs (cleanupText monoTextA)).map
        (fun w => count_syllables w (resolveLang none monoTextA))).sum = 10 := by
      decide
    show some (round1 (max 0 (fk_raw _ _ _))) = some 0
    rw [e1, e2, e3]
    have hmax : max (0 : ℚ) (fk_raw 10 10 10) = 0 := by
      rw [max_eq_left]
      unfold fk_raw
      push_cast
      norm_num
    rw [hmax]
    rw [round1_eq_of_floor 0 0 (by norm_num) (by push_cast; norm_num)]
    norm_num
  · rw [calc_manual_eval monoTextB none (by decide) (by decide)]
    have e1 : (splitWs (cleanupText monoTextB)).length = 10 := by decide
    have e2 : max 1 (countTermRuns (cleanupText monoTextB) false) = 10 := by decide
    have e3 : ((splitWs (cleanupText monoTextB)).map
        (fun w => count_syllables w (resolveLang none monoTextB))).sum = 11 := by
      decide
    show some (round1 (max 0 (fk_raw _ _ _))) = some 0
    rw [e1, e2, e3]
    have hmax : max (0 : ℚ) (fk_raw 10 10 11) = 0 := by
      rw [max_eq_left]
      unfold fk_raw
      push_cast
      norm_num
    rw [hmax]
    rw [round1_eq_of_floor 0 0 (by norm_num) (by push_cast; norm_num)]
    norm_num

/-- Claim C7 as amended: at fixed sentence and word counts, strictly
increasing the syllable count (hence the average syllables-per-word)
strictly increases the RAW fallback grade; the reported grade level, being
clamped at 0 and rounded, need not strictly increase (see the
counterexample). -/
theorem fallback_raw_monotone (w s y1 y2 : ℕ) (hw : 1 ≤ w) (hs : 1 ≤ s)
    (hy : y1 < y2) : fk_raw w s y1 < fk_raw w s y2 := by
  unfold fk_raw
  have hwq : (0 : ℚ) < (w : ℚ) := by exact_mod_cast hw
  have hyq : (y1 : ℚ) < (y2 : ℚ) := by exact_mod_cast hy
  have key : (y1 : ℚ) / (w : ℚ) < (y2 : ℚ) / (w : ℚ) :=
    (div_lt_div_iff_of_pos_right hwq).mpr hyq
  have key2 : 118 / 10 * ((y1 : ℚ) / (w : ℚ)) < 118 / 10 * ((y2 : ℚ) / (w : ℚ)) := by
    have hpos : (0 : ℚ) < 118 / 10 := by norm_num
    exact (mul_lt_mul_left hpos).mpr key
  linarith

/-- Witness for C7 (amended): 10 words, 10 sentences, 10 vs 11 syllables. -/
theorem fallback_raw_monotone_witness :
    fk_raw 10 10 10 < fk_raw 10 10 11 :=
  fallback_raw_monotone 10 10 10 11 (by norm_num) (by norm_num) (by norm_num)

/-- Claim C8: theme detection — each retained theme's score is
`(raw count / word count) * 10000` with a positive raw count (zero-count
themes discarded); the sorted list is descending with ties keeping
taxonomy declaration order (stability stated as invariance of each
equal-score slice); the result takes the top `top_n` themes, keeps only
those scoring at least 1, and returns their labels, so it has at most
`top_n` entries and every returned label comes from a theme scoring ≥ 1;
empty text yields `[]` without error. -/
theorem detect_themes_properties :
    (∀ (lang : Option String) (top_n : ℕ), detect_themes [] lang top_n = []) ∧
    (∀ (text : List Char) (lang : Option String) (top_n : ℕ),
      (detect_themes text lang top_n).length ≤ top_n) ∧
    (∀ (text : List Char) (lang : Option String) (top_n : ℕ) (lbl : String),
      lbl ∈ detect_themes text lang top_n →
      ∃ p, p ∈ theme_scores text (resolveLang lang text) ∧ (1 : ℚ) ≤ p.2 ∧
        lbl = (THEME_LABELS.lookup p.1).getD p.1) ∧
    (∀ (text : List Char) (lang : String) (id : String) (q : ℚ),
      (id, q) ∈ theme_scores text lang →
      ∃ kws, (id, kws) ∈ taxonomyFor lang ∧
        0 < themeRaw kws (text.map toLowerChar) ∧
        q = ((themeRaw kws (text.map toLowerChar) : ℕ) : ℚ) /
            (((splitWs text).length : ℕ) : ℚ) * 10000) ∧
    (∀ (text : List Char) (lang : String),
      (sorted_themes text lang).Pairwise (fun a b => b.2 ≤ a.2)) ∧
    (∀ (text : List Char) (lang : String) (q : ℚ),
      (sorted_themes text lang).filter (fun p => decide (p.2 = q)) =
        (theme_scores text lang).filter (fun p => decide (p.2 = q))) := by
  refine ⟨fun lang top_n => rfl, ?_, ?_, ?_, ?_, ?_⟩
  · intro text lang top_n
    simp only [detect_themes]
    split_ifs with hempty hwc
    · simp
    · simp
    · simp only [List.length_map]
      exact le_trans (List.length_filter_le _ _) (List.length_take_le _ _)
  · intro text lang top_n lbl hmem
    simp only [detect_themes] at hmem
    split_ifs at hmem with hempty hwc
    · exact absurd hmem (List.not_mem_nil _)
    · exact absurd hmem (List.not_mem_nil _)
    · rcases List.mem_map.1 hmem with ⟨p, hp, rfl⟩
      rcases List.mem_filter.1 hp with ⟨htake, hge⟩
      exact ⟨p, mem_stableSortDesc (List.mem_of_mem_take htake),
        of_decide_eq_true hge, rfl⟩
  · intro text lang id q hmem
    simp only [theme_scores] at hmem
    rcases List.mem_filterMap.1 hmem with ⟨a, ha, hfa⟩
    obtain ⟨aid, akws⟩ := a
    dsimp only at hfa
    split_ifs at hfa with hraw
    rw [Option.some.injEq, Prod.mk.injEq] at hfa
    obtain ⟨rfl, rfl⟩ := hfa
    exact ⟨akws, ha, hraw, rfl⟩
  · intro text lang
    exact pairwise_stableSortDesc (theme_scores text lang)
  · intro text lang q
    exact filter_stableSortDesc (theme_scores text lang) q

/-- Witness for C8: empty text gives `[]`, and the single label returned on
`demoLove` comes from a theme scoring at least 1. -/
theorem detect_themes_properties_witness :
    detect_themes [] none 5 = [] ∧
    (∃ p, p ∈ theme_scores demoLove (resolveLang (some "en") demoLove) ∧
      (1 : ℚ) ≤ p.2 ∧
      "Love & Romance" = (THEME_LABELS.lookup p.1).getD p.1) :=
  ⟨detect_themes_properties.1 none 5,
   detect_themes_properties.2.2.1 demoLove (some "en") 5 "Love & Romance"
     (by rw [detect_themes_demoLove]; exact List.mem_singleton.2 rfl)⟩

/-- Claim C9 (code reading): each language is scored by the number of its
marker words whose space-wrapped form `" word "` occurs in the lowercased
text; the returned language always is one of de/es/fr/en; it attains the
maximal score, and every language occurring EARLIER in the table order
`de, es, fr, en` scores strictly less (first maximum wins); the empty
string, where all scores tie at 0, yields "de". -/
theorem detect_language_properties :
    (∀ text : List Char,
      (detect_language text = "de" ∨ detect_language text = "es" ∨
        detect_language text = "fr" ∨ detect_language text = "en") ∧
      (detect_language text = "de" →
        marker_score (text.map toLowerChar) markers_es ≤
          marker_score (text.map toLowerChar) markers_de ∧
        marker_score (text.map toLowerChar) markers_fr ≤
          marker_score (text.map toLowerChar) markers_de ∧
        marker_score (text.map toLowerChar) markers_en ≤
          marker_score (text.map toLowerChar) markers_de) ∧
      (detect_language text = "es" →
        marker_score (text.map toLowerChar) markers_de <
          marker_score (text.map toLowerChar) markers_es ∧
        marker_score (text.map toLowerChar) markers_fr ≤
          marker_score (text.map toLowerChar) markers_es ∧
        marker_score (text.map toLowerChar) markers_en ≤
          marker_score (text.map toLowerChar) markers_es) ∧
      (detect_language text = "fr" →
        marker_score (text.map toLowerChar) markers_de <
          marker_score (text.map toLowerChar) markers_fr ∧
        marker_score (text.map toLowerChar) markers_es <
          marker_score (text.map toLowerChar) markers_fr ∧
        marker_score (text.map toLowerChar) markers_en ≤
          marker_score (text.map toLowerChar) markers_fr) ∧
      (detect_language text = "en" →
        marker_score (text.map toLowerChar) markers_de <
          marker_score (text.map toLowerChar) markers_en ∧
        marker_score (text.map toLowerChar) markers_es <
          marker_score (text.map toLowerChar) markers_en ∧
        marker_score (text.map toLowerChar) markers_fr <
          marker_score (text.map toLowerChar) markers_en)) ∧
    detect_language [] = "de" := by
  constructor
  · intro text
    simp only [detect_language, pickBest]
    split_ifs with h1 h2 h3 h4 h5 h6 h7
    all_goals dsimp only
    all_goals refine ⟨by decide, ?_, ?_, ?_, ?_⟩
    all_goals intro hres
    all_goals first
      | exact absurd hres (by decide)
      | exact ⟨by omega, by omega, by omega⟩
  · decide

/-- Witness for C9: on `cesText` the detector returns "es", and the
theorem then yields the strict/weak score comparisons. -/
theorem detect_language_properties_witness :
    marker_score (cesText.map toLowerChar) markers_de <
      marker_score (cesText.map toLowerChar) markers_es ∧
    marker_score (cesText.map toLowerChar) markers_fr ≤
      marker_score (cesText.map toLowerChar) markers_es ∧
    marker_score (cesText.map toLowerChar) markers_en ≤
      marker_score (cesText.map toLowerChar) markers_es :=
  (detect_language_properties.1 cesText).2.2.1 (by decide)

/-- Claim C10 (implicit): in the fallback tier the band is computed from
the raw (unclamped, unrounded) grade, not from the reported grade level:
in general `cefr = grade_to_cefr(raw)`, and on `demoBlunt` (raw grade
4.01) the reported grade level is 4.0, which maps to A1, while the
returned band is A2. -/
theorem cefr_from_raw_grade :
    (∀ (text : List Char) (lang : Option String),
      100 ≤ text.length →
      10 ≤ (splitWs (cleanupText text)).length →
      (calculate_reading_difficulty text lang).cefr =
        grade_to_cefr (some (fk_raw (splitWs (cleanupText text)).length
          (max 1 (countTermRuns (cleanupText text) false))
          ((splitWs (cleanupText text)).map
            (fun w => count_syllables w (resolveLang lang text))).sum))) ∧
    (calculate_reading_difficulty demoBlunt none).grade_level = some 4 ∧
    (calculate_reading_difficulty demoBlunt none).cefr = some "A2" ∧
    grade_to_cefr ((calculate_reading_difficulty demoBlunt none).grade_level)
      = some "A1" ∧
    (calculate_reading_difficulty demoBlunt none).cefr ≠
      grade_to_cefr ((calculate_reading_difficulty demoBlunt none).grade_level) := by
  have hrec := calc_manual_eval demoBlunt none (by decide) (by decide)
  have e1 : (splitWs (cleanupText demoBlunt)).length = 20 := by decide
  have e2 : max 1 (countTermRuns (cleanupText demoBlunt) false) = 1 := by decide
  have e3 : ((splitWs (cleanupText demoBlunt)).map
      (fun w => count_syllables w (resolveLang none demoBlunt))).sum = 20 := by
    decide
  have hfk : fk_raw 20 1 20 = 401 / 100 := by
    unfold fk_raw
    push_cast
    norm_num
  have hgl : (calculate_reading_difficulty demoBlunt none).grade_level
      = some 4 := by
    rw [hrec]
    show some (round1 (max 0 (fk_raw _ _ _))) = some 4
    rw [e1, e2, e3, hfk]
    rw [max_eq_right (by norm_num)]
    rw [round1_eq_of_floor (401 / 100) 40
      (Int.floor_eq_iff.mpr (by constructor <;> push_cast <;> norm_num))
      (by push_cast; norm_num)]
    norm_num
  have hcefr : (calculate_reading_difficulty demoBlunt none).cefr
      = some "A2" := by
    rw [hrec]
    show grade_to_cefr (some (fk_raw _ _ _)) = some "A2"
    rw [e1, e2, e3, hfk]
    simp only [grade_to_cefr]
    rw [if_neg (by norm_num), if_pos (by norm_num)]
  refine ⟨?_, hgl, hcefr, ?_, ?_⟩
  · intro text lang hl hw
    rw [calc_manual_eval text lang (by omega) (by omega)]
  · rw [hgl]
    simp only [grade_to_cefr]
    rw [if_pos (by norm_num)]
  · rw [hcefr, hgl]
    simp only [grade_to_cefr]
    rw [if_pos (by norm_num)]
    decide

/-- Witness for C10: the general band-from-raw-grade equation at
`demoBlunt`. -/
theorem cefr_from_raw_grade_witness :
    (calculate_reading_difficulty demoBlunt none).cefr =
      grade_to_cefr (some (fk_raw (splitWs (cleanupText demoBlunt)).length
        (max 1 (countTermRuns (cleanupText demoBlunt) false))
        ((splitWs (cleanupText demoBlunt)).map
          (fun w => count_syllables w (resolveLang none demoBlunt))).sum)) :=
  cefr_from_raw_grade.1 demoBlunt none (by decide) (by decide)

end Gutenberger
